import Mathlib

/-!
Verification development for the talos-pilot diagnostics and remediation
engine.  The Rust sources under `crates/talos-pilot-tui/src/components/
diagnostics/` are shallowly embedded: pure decision logic is translated
to Lean functions, every external call (RPC, management API, log fetch)
becomes an explicit environment value describing that call's outcome,
and the component's mutable state becomes a structure that the embedded
operations transform.  Types whose defining module is not part of the
snapshot (`diagnostics/types.rs`, `AsyncState` in talos-pilot-core, the
talos-rs client data types) are modelled from the specification and from
their uses in the embedded code; each such definition says so in its doc
comment.
-/

namespace TalosPilot

/-- Substring test on character lists: `charListHasSub hay needle` is true
iff `needle` occurs contiguously inside `hay`.  Used to embed Rust's
`str::contains` with a string pattern. -/
def charListHasSub : List Char → List Char → Bool
  | [], needle => needle.isEmpty
  | c :: rest, needle => needle.isPrefixOf (c :: rest) || charListHasSub rest needle

/-- Embedding of Rust `str::contains(pattern: &str)`. -/
def strContainsSub (hay needle : String) : Bool :=
  charListHasSub hay.data needle.data

/-- Embedding of Rust `str::starts_with(pattern: &str)`. -/
def strStartsWith (s pat : String) : Bool :=
  pat.data.isPrefixOf s.data

/-- Embedding of Rust `str::to_lowercase` for the ASCII names compared
here (Kubernetes pod names are ASCII DNS labels). -/
def strToLower (s : String) : String :=
  ⟨s.data.map Char.toLower⟩

/-- Splitting a character list at newline characters, keeping empty
segments (the behaviour of splitting a string on "\n"). -/
def splitOnNl : List Char → List (List Char)
  | [] => [[]]
  | c :: rest =>
    match splitOnNl rest with
    | [] => [[c]]
    | seg :: segs => if c = '\n' then [] :: seg :: segs else (c :: seg) :: segs

/-- Embedding of the `logs.lines()` split in `core.rs`: split at
newlines, without a final empty line after a terminating newline (the
behaviour of Rust's `lines`; its `\r` trimming does not affect the
containment tests made on the result). -/
def strLines (s : String) : List String :=
  let segs := (splitOnNl s.data).map String.mk
  if segs.getLast? = some "" then segs.dropLast else segs

/-- Check status taxonomy.  Modelled from the spec: `CheckStatus` lives in
`diagnostics/types.rs`, which is not part of the snapshot; the spec fixes
the four variants Pass, Warn, Fail, Unknown (§3). -/
inductive CheckStatus
  | pass
  | warn
  | fail
  | unknown
  deriving DecidableEq, Repr

/-- Detected network-plugin type.  Modelled from the spec and from the
matches in `cni/mod.rs` and `mod.rs` (variants Flannel, Cilium, Calico,
None, Unknown; the Rust `Default` is Unknown). -/
inductive CniType
  | flannel
  | cilium
  | calico
  | noCni
  | unknown
  deriving DecidableEq, Repr

/-- Closed set of fix actions.  Modelled from the spec (§3) and from the
matches in `diagnostics/mod.rs` (`initiate_fix`, `apply_pending_fix`). -/
inductive FixAction
  | addKernelModule (name : String)
  | applyConfigPatch (yaml : String) (requires_reboot : Bool)
  | restartService (id : String)
  | showDetails (text : String)
  | installCilium
  | hostCommand (command : String) (is_disruptive : Bool)
  deriving DecidableEq, Repr

/-- Modelled from the spec: `requires_reboot` is a pure function of the
variant (§3); kernel-module patches are applied with `--mode=reboot` in
`apply_pending_fix`. -/
def FixAction.requires_reboot : FixAction → Bool
  | .addKernelModule _ => true
  | .applyConfigPatch _ r => r
  | _ => false

/-- Modelled from the spec: `is_host_command` is a pure function of the
variant (§3). -/
def FixAction.is_host_command : FixAction → Bool
  | .hostCommand _ _ => true
  | _ => false

/-- A proposed fix attached to a check. -/
structure DiagnosticFix where
  description : String
  action : FixAction
  deriving DecidableEq, Repr

/-- One evaluated health fact.  Modelled from the spec (§3) and from the
constructor calls in `core.rs` and `cni/mod.rs`. -/
structure DiagnosticCheck where
  id : String
  name : String
  message : String
  status : CheckStatus
  fix : Option DiagnosticFix
  details : Option String
  deriving DecidableEq, Repr

/-- Constructor used as `DiagnosticCheck::pass(id, name, message)`. -/
def DiagnosticCheck.pass (id name message : String) : DiagnosticCheck :=
  ⟨id, name, message, .pass, none, none⟩

/-- Constructor used as `DiagnosticCheck::warn(id, name, message)`. -/
def DiagnosticCheck.warn (id name message : String) : DiagnosticCheck :=
  ⟨id, name, message, .warn, none, none⟩

/-- Constructor used as `DiagnosticCheck::fail(id, name, message, fix)`. -/
def DiagnosticCheck.fail (id name message : String) (fix : Option DiagnosticFix) :
    DiagnosticCheck :=
  ⟨id, name, message, .fail, fix, none⟩

/-- Constructor used as `DiagnosticCheck::unknown(id, name)`. -/
def DiagnosticCheck.unknown (id name : String) : DiagnosticCheck :=
  ⟨id, name, "", .unknown, none, none⟩

/-- Builder used as `check.with_details(text)`. -/
def DiagnosticCheck.with_details (c : DiagnosticCheck) (text : String) : DiagnosticCheck :=
  { c with details := some text }

instance {ε α : Type _} [DecidableEq ε] [DecidableEq α] : DecidableEq (Except ε α)
  | .ok a, .ok b =>
    if h : a = b then isTrue (by rw [h]) else isFalse (by intro he; cases he; exact h rfl)
  | .ok _, .error _ => isFalse (by intro h; cases h)
  | .error _, .ok _ => isFalse (by intro h; cases h)
  | .error a, .error b =>
    if h : a = b then isTrue (by rw [h]) else isFalse (by intro he; cases he; exact h rfl)

/-- Pod record as returned by the orchestration query boundary
(`OrchestrationQuery::list_pods`, spec §6).  In `k8s.rs` these fields are
extracted from the raw Kubernetes pod object (`phase` defaulting to
"Unknown", `ready` from the Ready condition, `restart_count` summed over
containers); the extracted record is the boundary here. -/
structure PodRecord where
  name : String
  phase : String
  ready : Bool
  restart_count : Int
  deriving DecidableEq, Repr

/-- Pod inventory entry stored in `CniInfo` (`k8s.rs` / `types.rs`). -/
structure CniPodInfo where
  name : String
  phase : String
  ready : Bool
  restart_count : Int
  deriving DecidableEq, Repr

/-- Detected CNI information (`k8s.rs` `CniInfo`, mirrored by the
`types.rs` struct of the same shape). -/
structure CniInfo where
  cni_type : CniType
  pods : List CniPodInfo
  deriving DecidableEq, Repr

/-- The `CniInfo::default()` starting value of the detection fold. -/
def CniInfo.empty : CniInfo := ⟨.unknown, []⟩

/-- One step of the pod loop in `detect_cni_from_k8s` (`k8s.rs`): a pod
whose lowercased name starts with a plugin's marker sets the detected
type and is added to the inventory; other pods leave the state alone. -/
def detect_cni_step (info : CniInfo) (pod : PodRecord) : CniInfo :=
  let name_lower := strToLower pod.name
  if strStartsWith name_lower "kube-flannel" || strStartsWith name_lower "flannel" then
    ⟨.flannel, info.pods ++ [⟨pod.name, pod.phase, pod.ready, pod.restart_count⟩]⟩
  else if strStartsWith name_lower "cilium" then
    ⟨.cilium, info.pods ++ [⟨pod.name, pod.phase, pod.ready, pod.restart_count⟩]⟩
  else if strStartsWith name_lower "calico" || strStartsWith name_lower "calico-node" then
    ⟨.calico, info.pods ++ [⟨pod.name, pod.phase, pod.ready, pod.restart_count⟩]⟩
  else
    info

/-- Embedding of `detect_cni_from_k8s` (`k8s.rs`) over the pod list
returned by `list_pods` on the kube-system namespace. -/
def detect_cni_from_k8s (pods_result : Except String (List PodRecord)) :
    Except String CniInfo :=
  pods_result.map (List.foldl detect_cni_step CniInfo.empty)

/-- Outcome environment of an established management-API client: the one
call detection makes through it is `list_pods` on kube-system. -/
structure K8sEnv where
  list_pods : Except String (List PodRecord)
  deriving DecidableEq, Repr

/-- Embedding of `detect_cni_from_logs` (`cni/mod.rs`): the argument is
the outcome of `client.logs("kubelet", 200)`. -/
def detect_cni_from_logs (logs_result : Except String String) : CniType :=
  match logs_result with
  | .ok logs =>
    if strContainsSub logs "flannel" || strContainsSub logs "subnet.env" then .flannel
    else if strContainsSub logs "cilium" then .cilium
    else if strContainsSub logs "calico" || strContainsSub logs "felix" then .calico
    else .unknown
  | .error _ => .unknown

/-- Call environment of `detect_cni` (`cni/mod.rs`): the outcome of
creating a management-API client, and the outcome of the kubelet log
fetch that the fallback would use. -/
structure CniDetectEnv where
  k8s_client : Except String K8sEnv
  kubelet_logs : Except String String
  deriving DecidableEq, Repr

/-- Embedding of `detect_cni` (`cni/mod.rs`): primary path through the
management API first; on creation failure, API error, or an Unknown
detection result, fall back to kubelet log scanning with no pod info. -/
def detect_cni (env : CniDetectEnv) : CniType × Option CniInfo :=
  match env.k8s_client with
  | .ok k =>
    match detect_cni_from_k8s k.list_pods with
    | .ok info =>
      if info.cni_type = CniType.unknown then
        (detect_cni_from_logs env.kubelet_logs, none)
      else
        (info.cni_type, some ⟨info.cni_type, info.pods⟩)
    | .error _ => (detect_cni_from_logs env.kubelet_logs, none)
  | .error _ => (detect_cni_from_logs env.kubelet_logs, none)

/-- Modelled from the spec: `detect_cni_with_client`, the variant of
`detect_cni` called by `refresh` with the already-created management-API
client, is not part of the snapshot.  Per §4.1 the primary path runs when
a client is available and the log fallback is used when the primary path
is unavailable or yields no match; the decision structure mirrors
`detect_cni`. -/
def detect_cni_with_client (k8s : Option K8sEnv) (logs : Except String String) :
    CniType × Option CniInfo :=
  match k8s with
  | some k =>
    match detect_cni_from_k8s k.list_pods with
    | .ok info =>
      if info.cni_type = CniType.unknown then
        (detect_cni_from_logs logs, none)
      else
        (info.cni_type, some ⟨info.cni_type, info.pods⟩)
    | .error _ => (detect_cni_from_logs logs, none)
  | none => (detect_cni_from_logs logs, none)

/-- Memory statistics at the node-accessor boundary.  Modelled from the
spec: the `MemInfo` struct lives in the talos-rs crate, not under the
snapshot; it carries `mem_total` and `mem_available` in bytes (§6,
`NodeAccessor::memory`). -/
structure MemInfo where
  mem_total : Nat
  mem_available : Nat
  deriving DecidableEq, Repr

/-- Modelled from the spec: `MemInfo::usage_percent` (talos-rs, not under
the snapshot); per §4.2 the memory thresholds apply to
`(total - available) / total`, here as an exact rational percentage. -/
def MemInfo.usage_percent (m : MemInfo) : ℚ :=
  if m.mem_total = 0 then 0
  else ((m.mem_total - m.mem_available : Nat) : ℚ) * 100 / (m.mem_total : ℚ)

/-- Per-node memory reply (`client.memory()` yields one entry per node,
each with an optional `meminfo`). -/
structure NodeMemory where
  meminfo : Option MemInfo
  deriving DecidableEq, Repr

/-- Load averages at the node-accessor boundary; the Rust floats are
modelled as exact rationals. -/
structure LoadAvg where
  load1 : ℚ
  load5 : ℚ
  load15 : ℚ
  deriving DecidableEq, Repr

/-- Service health flag at the node-accessor boundary. -/
structure ServiceHealthInfo where
  healthy : Bool
  deriving DecidableEq, Repr

/-- One managed service as reported by `client.services()`. -/
structure ServiceInfo where
  id : String
  state : String
  health : Option ServiceHealthInfo
  deriving DecidableEq, Repr

/-- Services of one responding node. -/
structure NodeServices where
  services : List ServiceInfo
  deriving DecidableEq, Repr

/-- Consensus-store status at the node-accessor boundary
(`client.etcd_status()`); `is_leader` is the Rust method's value. -/
structure EtcdStatus where
  is_leader : Bool
  leader_id : Nat
  deriving DecidableEq, Repr

/-- The message built for the memory check in `run_system_checks`
(`core.rs`).  The Rust code formats `used / total GB (pct%)` with fixed
decimal precision; the numeric rendering here is the exact rational,
a presentation-only difference. -/
def mem_message (info : MemInfo) : String :=
  let used_gb : ℚ := ((info.mem_total - info.mem_available : Nat) : ℚ) / 1073741824
  let total_gb : ℚ := (info.mem_total : ℚ) / 1073741824
  toString used_gb ++ " / " ++ toString total_gb ++ " GB (" ++
    toString info.usage_percent ++ "%)"

/-- The memory branch of `run_system_checks` (`core.rs`): Fail above 90%
used, Warn above 80%, else Pass. -/
def memory_check (info : MemInfo) : DiagnosticCheck :=
  let usage_pct := info.usage_percent
  let msg := mem_message info
  if usage_pct > 90 then DiagnosticCheck.fail "memory" "Memory" msg none
  else if usage_pct > 80 then DiagnosticCheck.warn "memory" "Memory" msg
  else DiagnosticCheck.pass "memory" "Memory" msg

/-- The message built for the CPU-load check in `run_system_checks`
(`core.rs`), with exact rationals in place of fixed-precision floats. -/
def load_message (load : LoadAvg) : String :=
  toString load.load1 ++ " / " ++ toString load.load5 ++ " / " ++ toString load.load15

/-- The CPU-load branch of `run_system_checks` (`core.rs`): Warn when the
1-minute load exceeds 4.0, else Pass (fixed heuristic, not CPU-scaled). -/
def load_check (load : LoadAvg) : DiagnosticCheck :=
  let msg := load_message load
  if load.load1 > 4 then DiagnosticCheck.warn "cpu_load" "CPU Load" msg
  else DiagnosticCheck.pass "cpu_load" "CPU Load" msg

/-- Call environment of `run_system_checks`: outcome of `client.memory()`
and `client.load_avg()`. -/
structure SystemEnv where
  memory : Except String (List NodeMemory)
  load_avg : Except String (List LoadAvg)
  deriving DecidableEq, Repr

/-- The checks pushed by the memory block of `run_system_checks`
(`core.rs`): the threshold check when stats are available, one Unknown
check with the error in details on a fetch error. -/
def system_memory_checks (memory_result : Except String (List NodeMemory)) :
    List DiagnosticCheck :=
  match memory_result with
  | .ok mem_list =>
    match mem_list.head? with
    | some mem =>
      match mem.meminfo with
      | some info => [memory_check info]
      | none => []
    | none => []
  | .error e => [(DiagnosticCheck.unknown "memory" "Memory").with_details ("Error: " ++ e)]

/-- The checks pushed by the CPU-load block of `run_system_checks`
(`core.rs`). -/
def system_load_checks (load_result : Except String (List LoadAvg)) :
    List DiagnosticCheck :=
  match load_result with
  | .ok load_list =>
    match load_list.head? with
    | some load => [load_check load]
    | none => []
  | .error e => [(DiagnosticCheck.unknown "cpu_load" "CPU Load").with_details ("Error: " ++ e)]

/-- Embedding of `run_system_checks` (`core.rs`): the memory check, then
the CPU-load check; each fetch error is caught and becomes one Unknown
check with the error in its details. -/
def run_system_checks (env : SystemEnv) : List DiagnosticCheck :=
  system_memory_checks env.memory ++ system_load_checks env.load_avg

/-- Embedding of `run_service_checks` (`core.rs`): every managed service
on every responding node yields Pass when its health flag is true, else
Fail with an attached restart-service fix; a fetch error yields one
Unknown check. -/
def run_service_checks (services_result : Except String (List NodeServices)) :
    List DiagnosticCheck :=
  match services_result with
  | .ok services_list =>
    services_list.flatMap (fun node_services =>
      node_services.services.map (fun service =>
        let is_healthy := (service.health.map (·.healthy)).getD false
        let status_msg :=
          service.state ++ " (" ++ (if is_healthy then "healthy" else "unhealthy") ++ ")"
        if is_healthy then
          DiagnosticCheck.pass ("service_" ++ service.id) service.id status_msg
        else
          DiagnosticCheck.fail ("service_" ++ service.id) service.id status_msg
            (some ⟨"Restart " ++ service.id, FixAction.restartService service.id⟩)))
  | .error e =>
    [(DiagnosticCheck.unknown "services" "Services").with_details ("Error: " ++ e)]

/-- The last-20-lines window taken over kubelet logs in
`run_kubernetes_checks` (`core.rs`). -/
def recent_log_window (logs : String) : String :=
  let log_lines := strLines logs
  if log_lines.length > 20 then
    String.intercalate "\n" (log_lines.drop (log_lines.length - 20))
  else logs

/-- Call environment of `run_kubernetes_checks`: outcome of
`client.etcd_status()` and of `client.logs("kubelet", 100)`. -/
structure KubernetesEnv where
  etcd_status : Except String (List EtcdStatus)
  kubelet_logs : Except String String
  deriving DecidableEq, Repr

/-- The etcd message of `run_kubernetes_checks` (`core.rs`); the Rust
code renders the leader id in hexadecimal, here in decimal. -/
def etcd_message (status : EtcdStatus) : String :=
  if status.is_leader then "Leader, healthy"
  else "Follower (leader: " ++ toString status.leader_id ++ ")"

/-- The checks pushed by the etcd block of `run_kubernetes_checks`
(`core.rs`): only on control-plane roles; Pass for leader or follower,
Fail "Unreachable" with the error in details on a fetch error. -/
def kubernetes_etcd_checks (node_role : String)
    (etcd_result : Except String (List EtcdStatus)) : List DiagnosticCheck :=
  if strContainsSub node_role "controlplane" || strContainsSub node_role "control" then
    match etcd_result with
    | .ok status_list =>
      match status_list.head? with
      | some status => [DiagnosticCheck.pass "etcd" "Etcd" (etcd_message status)]
      | none => []
    | .error e =>
      [(DiagnosticCheck.fail "etcd" "Etcd" "Unreachable" none).with_details ("Error: " ++ e)]
  else []

/-- The checks pushed by the kubelet-log pod-health block of
`run_kubernetes_checks` (`core.rs`): Warn when the crash-loop marker is
in the recent window, Pass otherwise, Unknown on a fetch error. -/
def kubernetes_pod_checks (logs_result : Except String String) : List DiagnosticCheck :=
  match logs_result with
  | .ok logs =>
    let recent_logs := recent_log_window logs
    if strContainsSub recent_logs "CrashLoopBackOff" then
      [DiagnosticCheck.warn "pods_crashing" "Pod Health" "CrashLoopBackOff detected"]
    else
      [DiagnosticCheck.pass "pods_crashing" "Pod Health" "No issues detected"]
  | .error _ => [DiagnosticCheck.unknown "pods_crashing" "Pod Health"]

/-- Embedding of `run_kubernetes_checks` (`core.rs`): the etcd block
(control-plane roles only), then the kubelet-log crash-loop scan. -/
def run_kubernetes_checks (env : KubernetesEnv) (node_role : String) :
    List DiagnosticCheck :=
  kubernetes_etcd_checks node_role env.etcd_status ++ kubernetes_pod_checks env.kubelet_logs

/-- An unhealthy-pod record inside the pod-health summary (`types.rs`,
modelled from the conversion in `refresh`). -/
structure UnhealthyPodInfo where
  name : String
  podNamespace : String
  podState : String
  restart_count : Int
  deriving DecidableEq, Repr

/-- Pod-health summary stored in the context (`types.rs`, modelled from
the conversion in `refresh` and spec §3). -/
structure PodHealthInfo where
  crashing : List UnhealthyPodInfo
  image_pull_errors : List UnhealthyPodInfo
  total_pods : Nat
  deriving DecidableEq, Repr

/-- Detected addons (`addons/mod.rs`). -/
structure DetectedAddons where
  cert_manager : Bool := false
  external_secrets : Bool := false
  kyverno : Bool := false
  ingress_nginx : Bool := false
  traefik : Bool := false
  prometheus : Bool := false
  argocd : Bool := false
  flux : Bool := false
  deriving DecidableEq, Repr

/-- Per-node diagnostic context.  Modelled from the spec (§3): the
`DiagnosticContext` struct lives in `diagnostics/types.rs`, which is not
part of the snapshot; fields are taken from the spec's list and from
every context mutation in `mod.rs`. -/
structure DiagnosticContext where
  hostname : String := ""
  node_endpoint : Option String := none
  node_role : String := ""
  platform : String := ""
  is_container : Bool := false
  cpu_count : Nat := 1
  cni_type : CniType := .unknown
  cni_info : Option CniInfo := none
  pod_health : Option PodHealthInfo := none
  k8s_error : Option String := none
  deriving DecidableEq, Repr

/-- `DiagnosticContext::new()` / `Default::default()`. -/
def DiagnosticContext.new : DiagnosticContext := {}

/-- Data loaded asynchronously for the diagnostics component
(`DiagnosticsData`, `mod.rs`). -/
structure DiagnosticsData where
  hostname : String := ""
  address : String := ""
  context : DiagnosticContext := DiagnosticContext.new
  system_checks : List DiagnosticCheck := []
  kubernetes_checks : List DiagnosticCheck := []
  service_checks : List DiagnosticCheck := []
  cni_checks : List DiagnosticCheck := []
  addon_checks : List DiagnosticCheck := []
  detected_addons : DetectedAddons := {}
  deriving DecidableEq, Repr

/-- The five check-category lists of a `DiagnosticsData` snapshot, in
category order (system, kubernetes, services, cni, addons). -/
def five_lists (d : DiagnosticsData) :
    List DiagnosticCheck × List DiagnosticCheck × List DiagnosticCheck ×
    List DiagnosticCheck × List DiagnosticCheck :=
  (d.system_checks, d.kubernetes_checks, d.service_checks, d.cni_checks, d.addon_checks)

/-- Async load-lifecycle wrapper.  Modelled from the spec: `AsyncState`
lives in talos-pilot-core, not under the snapshot.  Per §3/§7,
`set_error` replaces only the error slot and never the data slot,
`start_loading` clears any stale error while retaining last-known data
(§4.3 step 1), and `mark_loaded` ends the loading phase. -/
structure AsyncState (α : Type _) where
  data : Option α
  error : Option String
  loading : Bool
  deriving DecidableEq, Repr

/-- `AsyncState::with_data`. -/
def AsyncState.with_data (d : α) : AsyncState α := ⟨some d, none, false⟩

/-- `AsyncState::set_error`: replaces only the error slot. -/
def AsyncState.set_error (s : AsyncState α) (e : String) : AsyncState α :=
  { s with error := some e, loading := false }

/-- `AsyncState::start_loading`: clears any stale error, retains data. -/
def AsyncState.start_loading (s : AsyncState α) : AsyncState α :=
  { s with error := none, loading := true }

/-- `AsyncState::mark_loaded`. -/
def AsyncState.mark_loaded (s : AsyncState α) : AsyncState α :=
  { s with loading := false }

/-- `AsyncState::set_data`. -/
def AsyncState.set_data (s : AsyncState α) (d : α) : AsyncState α :=
  { s with data := some d }

/-- `AsyncState::take_data` leaves the state with no data and returns
what was there; the embedding returns both parts. -/
def AsyncState.take_data (s : AsyncState α) : Option α × AsyncState α :=
  (s.data, { s with data := none })

/-- Group view mode (`GroupViewMode`, `mod.rs`). -/
inductive GroupViewMode
  | interleaved
  | byNode
  deriving DecidableEq, Repr

/-- Per-node diagnostics data for group view (`NodeDiagnosticsData`). -/
structure NodeDiagnosticsData where
  hostname : String
  data : DiagnosticsData
  deriving DecidableEq, Repr

/-- A fix waiting for confirmation (`PendingAction`, `types.rs`; fields
from its uses in `initiate_fix` and `apply_pending_fix`). -/
structure PendingAction where
  check_id : String
  fix : DiagnosticFix
  preview : Option String
  deriving DecidableEq, Repr

/-- Result rows of `apply_configuration`; the payload is irrelevant to
the embedded logic (talos-rs `ApplyConfigResult` is not under the
snapshot). -/
inductive ApplyConfigResult
  | mk
  deriving DecidableEq, Repr

/-- The diagnostics component state (`DiagnosticsComponent`, `mod.rs`).
The rendering-only `TableState` is kept as the selected row it mirrors;
the Talos client handle is kept as its presence (`has_client`); the
clipboard feedback timestamp (wall-clock time) is omitted. -/
structure DiagnosticsComponent where
  state : AsyncState DiagnosticsData
  selected_category : Nat
  selected_check : Nat
  table_selected : Option Nat
  pending_action : Option PendingAction
  show_confirmation : Bool
  confirmation_selection : Nat
  show_details : Bool
  details_title : String
  details_content : String
  applying_fix : Bool
  apply_result : Option (Except String (List ApplyConfigResult))
  auto_refresh : Bool
  has_client : Bool
  controlplane_endpoint : Option String
  config_path : Option String
  is_group_view : Bool
  group_name : String
  nodes : List (String × String)
  group_view_mode : GroupViewMode
  node_data : List (String × NodeDiagnosticsData)
  selected_node_tab : Nat
  node_role : String
  deriving DecidableEq, Repr

namespace DiagnosticsComponent

/-- `DiagnosticsComponent::new` (single-node constructor). -/
def new (hostname address node_role : String) (config_path : Option String) :
    DiagnosticsComponent :=
  let context : DiagnosticContext :=
    { DiagnosticContext.new with
        node_role := node_role
        hostname := hostname
        node_endpoint := some address }
  let initial_data : DiagnosticsData :=
    { hostname := hostname, address := address, context := context }
  { state := AsyncState.with_data initial_data
    selected_category := 0
    selected_check := 0
    table_selected := some 0
    pending_action := none
    show_confirmation := false
    confirmation_selection := 1
    show_details := false
    details_title := ""
    details_content := ""
    applying_fix := false
    apply_result := none
    auto_refresh := true
    has_client := false
    controlplane_endpoint := none
    config_path := config_path
    is_group_view := false
    group_name := ""
    nodes := []
    group_view_mode := .interleaved
    node_data := []
    selected_node_tab := 0
    node_role := node_role }

/-- `DiagnosticsComponent::new_group` (group-view constructor). -/
def new_group (group_name node_role : String) (nodes : List (String × String))
    (cp_endpoint config_path : Option String) : DiagnosticsComponent :=
  let context : DiagnosticContext :=
    { DiagnosticContext.new with node_role := node_role, hostname := group_name }
  let initial_data : DiagnosticsData :=
    { hostname := group_name, address := "", context := context }
  { state := AsyncState.with_data initial_data
    selected_category := 0
    selected_check := 0
    table_selected := some 0
    pending_action := none
    show_confirmation := false
    confirmation_selection := 1
    show_details := false
    details_title := ""
    details_content := ""
    applying_fix := false
    apply_result := none
    auto_refresh := true
    has_client := false
    controlplane_endpoint := cp_endpoint
    config_path := config_path
    is_group_view := true
    group_name := group_name
    nodes := nodes
    group_view_mode := .interleaved
    node_data := []
    selected_node_tab := 0
    node_role := node_role }

/-- `set_client`: the embedding records only that a client is present. -/
def set_client (c : DiagnosticsComponent) : DiagnosticsComponent :=
  { c with has_client := true }

/-- `DiagnosticsComponent::set_error`. -/
def set_error (c : DiagnosticsComponent) (e : String) : DiagnosticsComponent :=
  { c with state := c.state.set_error e }

/-- `self.data()` read access. -/
def data (c : DiagnosticsComponent) : Option DiagnosticsData :=
  c.state.data

/-- The `if let Some(data) = self.data_mut()` update pattern: apply `f`
to the loaded data when present, otherwise change nothing. -/
def modify_data (c : DiagnosticsComponent) (f : DiagnosticsData → DiagnosticsData) :
    DiagnosticsComponent :=
  { c with state := { c.state with data := c.state.data.map f } }

/-- Insertion into the `node_data` hash map: replace the value of an
existing key in place, otherwise add the binding. -/
def assocInsert (k : String) (v : NodeDiagnosticsData) :
    List (String × NodeDiagnosticsData) → List (String × NodeDiagnosticsData)
  | [] => [(k, v)]
  | (k', v') :: rest =>
    if k' = k then (k, v) :: rest else (k', v') :: assocInsert k v rest

/-- Prefixing of one node's checks during the group merge
(`rebuild_group_data`): each check's display name gains a
`[hostname] ` marker. -/
def prefix_checks (host : String) (checks : List DiagnosticCheck) :
    List DiagnosticCheck :=
  checks.map (fun check => { check with name := "[" ++ host ++ "] " ++ check.name })

/-- The list-clearing step of `rebuild_group_data` (`mod.rs`). -/
def clear_lists (d : DiagnosticsData) : DiagnosticsData :=
  { d with
      system_checks := []
      kubernetes_checks := []
      cni_checks := []
      service_checks := []
      addon_checks := [] }

/-- One iteration of the node-merging loop in `rebuild_group_data`
(`mod.rs`): append one node's checks, name-prefixed with its hostname,
to each of the five lists. -/
def merge_step (acc : DiagnosticsData) (entry : String × NodeDiagnosticsData) :
    DiagnosticsData :=
  let node_data := entry.2
  { acc with
      system_checks := acc.system_checks ++
        prefix_checks node_data.hostname node_data.data.system_checks
      kubernetes_checks := acc.kubernetes_checks ++
        prefix_checks node_data.hostname node_data.data.kubernetes_checks
      cni_checks := acc.cni_checks ++
        prefix_checks node_data.hostname node_data.data.cni_checks
      service_checks := acc.service_checks ++
        prefix_checks node_data.hostname node_data.data.service_checks
      addon_checks := acc.addon_checks ++
        prefix_checks node_data.hostname node_data.data.addon_checks }

/-- Embedding of `rebuild_group_data` (`mod.rs`): take the current data
(or a default), clear all five lists, and rebuild them from every
per-node snapshot in `node_data`. -/
def rebuild_group_data (c : DiagnosticsComponent) : DiagnosticsComponent :=
  if c.is_group_view = false then c
  else
    let taken := c.state.take_data
    let base : DiagnosticsData := taken.1.getD {}
    let merged : DiagnosticsData := c.node_data.foldl merge_step (clear_lists base)
    { c with state := taken.2.set_data merged }

/-- Embedding of `add_node_diagnostics` (`mod.rs`): a no-op unless this
is a group view; otherwise store the node's data and rebuild the merged
view. -/
def add_node_diagnostics (c : DiagnosticsComponent) (hostname : String)
    (d : DiagnosticsData) : DiagnosticsComponent :=
  if c.is_group_view = false then c
  else
    let node_diag : NodeDiagnosticsData := ⟨hostname, d⟩
    let c := { c with node_data := assocInsert hostname node_diag c.node_data }
    c.rebuild_group_data

/-- Embedding of `get_display_data` (`mod.rs`). -/
def get_display_data (c : DiagnosticsComponent) : Option DiagnosticsData :=
  if c.is_group_view ∧ c.group_view_mode = GroupViewMode.byNode then
    match c.nodes.get? c.selected_node_tab with
    | none => none
    | some (hostname, _) =>
      match (c.node_data.find? (fun entry => entry.1 = hostname)).map (·.2) with
      | none => none
      | some node_data => some node_data.data
  else c.data

/-- Embedding of `current_checks` (`mod.rs`). -/
def current_checks (c : DiagnosticsComponent) : List DiagnosticCheck :=
  match c.get_display_data with
  | none => []
  | some d =>
    match c.selected_category with
    | 0 => d.system_checks
    | 1 => d.kubernetes_checks
    | 2 => d.cni_checks
    | 3 => d.service_checks
    | 4 => d.addon_checks
    | _ => []

/-- The selected check of the current category (`selected_check()`
accessor in `mod.rs`, distinct from the index field). -/
def get_selected_check (c : DiagnosticsComponent) : Option DiagnosticCheck :=
  c.current_checks.get? c.selected_check

/-- `category_count` (`mod.rs`). -/
def category_count (_c : DiagnosticsComponent) : Nat := 5

/-- `update_table_state`. -/
def update_table_state (c : DiagnosticsComponent) : DiagnosticsComponent :=
  { c with table_selected := some c.selected_check }

/-- `next_category`. -/
def next_category (c : DiagnosticsComponent) : DiagnosticsComponent :=
  ({ c with
      selected_category := (c.selected_category + 1) % c.category_count
      selected_check := 0 }).update_table_state

/-- `prev_category`. -/
def prev_category (c : DiagnosticsComponent) : DiagnosticsComponent :=
  ({ c with
      selected_category :=
        if c.selected_category = 0 then c.category_count - 1
        else c.selected_category - 1
      selected_check := 0 }).update_table_state

/-- `next_check` (clamps at the end, no wraparound). -/
def next_check (c : DiagnosticsComponent) : DiagnosticsComponent :=
  let count := c.current_checks.length
  if 0 < count ∧ c.selected_check < count - 1 then
    ({ c with selected_check := c.selected_check + 1 }).update_table_state
  else c

/-- `prev_check` (clamps at the start, no wraparound). -/
def prev_check (c : DiagnosticsComponent) : DiagnosticsComponent :=
  if 0 < c.selected_check then
    ({ c with selected_check := c.selected_check - 1 }).update_table_state
  else c

/-- `ensure_valid_selection`: re-clamp the check index into the bounds of
the currently selected category. -/
def ensure_valid_selection (c : DiagnosticsComponent) : DiagnosticsComponent :=
  let count := c.current_checks.length
  let c :=
    if count = 0 then { c with selected_check := 0 }
    else if count ≤ c.selected_check then { c with selected_check := count - 1 }
    else c
  c.update_table_state

/-- Embedding of `initiate_fix` (`mod.rs`): on a check with a fix, enter
the confirmation dialog with a rendered preview; on a check with only
details, open the read-only details popup; otherwise do nothing. -/
def initiate_fix (c : DiagnosticsComponent) : DiagnosticsComponent :=
  match c.get_selected_check with
  | none => c
  | some check =>
    match check.fix with
    | some fix =>
      let preview : Option String :=
        match fix.action with
        | .addKernelModule name =>
          some ("machine:\n  kernel:\n    modules:\n      - name: " ++ name)
        | .applyConfigPatch yaml _ => some yaml
        | _ => none
      let is_host_cmd := fix.action.is_host_command
      { c with
          pending_action := some ⟨check.id, fix, preview⟩
          show_confirmation := true
          confirmation_selection := if is_host_cmd then 0 else 1 }
    | none =>
      match check.details with
      | some details =>
        { c with
            details_title := check.name
            details_content := details
            show_details := true }
      | none => c

/-- Actions a key handler can emit back to the application loop
(`action.rs` is not under the snapshot; the variants are those returned
by `DiagnosticsComponent::handle_key_event`). -/
inductive Action
  | back
  | refreshRequest
  | applyDiagnosticFix
  deriving DecidableEq, Repr

/-- The key codes `DiagnosticsComponent::handle_key_event` matches on. -/
inductive Key
  | esc
  | enter
  | tab
  | backTab
  | down
  | up
  | left
  | right
  | charQ
  | charR
  | charJ
  | charK
  | charH
  | charL
  | charV
  | openBracket
  | closeBracket
  | other
  deriving DecidableEq, Repr

/-- Embedding of `handle_key_event` (`mod.rs`): details popup handling
first, then the confirmation dialog, then plain navigation keys.  The
clipboard copy of a host command mutates only the (omitted) feedback
timestamp, so that branch leaves the component unchanged here. -/
def handle_key_event (c : DiagnosticsComponent) (key : Key) :
    DiagnosticsComponent × Option Action :=
  if c.show_details then
    match key with
    | .esc | .charQ | .enter => ({ c with show_details := false }, none)
    | _ => (c, none)
  else if c.show_confirmation then
    let is_host_command :=
      (c.pending_action.map (fun p => p.fix.action.is_host_command)).getD false
    match key with
    | .left | .charH => ({ c with confirmation_selection := 0 }, none)
    | .right | .charL => ({ c with confirmation_selection := 1 }, none)
    | .enter =>
      if is_host_command then
        if c.confirmation_selection = 0 then (c, none)
        else ({ c with show_confirmation := false, pending_action := none }, none)
      else if c.confirmation_selection = 0 then
        ({ c with show_confirmation := false, pending_action := none }, none)
      else (c, some Action.applyDiagnosticFix)
    | .esc | .charQ => ({ c with show_confirmation := false, pending_action := none }, none)
    | _ => (c, none)
  else
    match key with
    | .charQ | .esc => (c, some Action.back)
    | .charR => (c, some Action.refreshRequest)
    | .down | .charJ => (c.next_check, none)
    | .up | .charK => (c.prev_check, none)
    | .tab => (c.next_category, none)
    | .backTab => (c.prev_category, none)
    | .enter => (c.initiate_fix, none)
    | .charV =>
      if c.is_group_view then
        ({ c with
            group_view_mode :=
              match c.group_view_mode with
              | .interleaved => .byNode
              | .byNode => .interleaved
            selected_check := 0
            table_selected := some 0 }, none)
      else (c, none)
    | .openBracket =>
      if c.is_group_view ∧ c.group_view_mode = GroupViewMode.byNode ∧
          0 < c.selected_node_tab then
        ({ c with
            selected_node_tab := c.selected_node_tab - 1
            selected_check := 0
            table_selected := some 0 }, none)
      else (c, none)
    | .closeBracket =>
      if c.is_group_view ∧ c.group_view_mode = GroupViewMode.byNode ∧
          c.selected_node_tab + 1 < c.nodes.length then
        ({ c with
            selected_node_tab := c.selected_node_tab + 1
            selected_check := 0
            table_selected := some 0 }, none)
      else (c, none)
    | _ => (c, none)

/-- The synchronous head of `apply_pending_fix` (`mod.rs`), up to the
first suspension point: take the pending action (a no-op when none is
pending), bail out with an error when no client is configured, otherwise
enter the Applying phase and close the confirmation dialog. -/
def apply_start (c : DiagnosticsComponent) : DiagnosticsComponent :=
  match c.pending_action with
  | none => c
  | some _ =>
    if c.has_client = false then
      ({ c with pending_action := none }).set_error "No client configured"
    else
      { c with
          pending_action := none
          applying_fix := true
          show_confirmation := false }

/-- The tail of `apply_pending_fix` (`mod.rs`) after the dispatched
action has reported: record the apply result (for the variants that do
not dispatch anything, `apply_result` is untouched, passed here as
`none`) and leave the Applying phase. -/
def apply_finish (c : DiagnosticsComponent)
    (result : Option (Except String (List ApplyConfigResult))) :
    DiagnosticsComponent :=
  { c with
      apply_result :=
        match result with
        | some r => some r
        | none => c.apply_result
      applying_fix := false }

end DiagnosticsComponent

/-- Version reply at the node-accessor boundary (`client.version()`);
only the platform field is consumed by `refresh`. -/
structure VersionInfo where
  platform : String
  deriving DecidableEq, Repr

/-- CPU-info reply at the node-accessor boundary (`client.cpu_info()`);
only the CPU count is consumed by `refresh`. -/
structure CpuInfo where
  cpu_count : Nat
  deriving DecidableEq, Repr

/-- Call environment of one `refresh()` (`mod.rs`): the outcome of every
external call the refresh makes, in program order.  `timed_out` is the
outcome of the single `tokio::time::timeout` wrapped around the
concurrent check run.  `cert_checks`, `cni_checks` and `addon_checks`
are the lists produced by `run_certificate_checks`, the three-argument
`run_cni_checks` and `run_addon_checks`, whose defining code is not part
of the snapshot; they enter the five-list snapshot unchanged. -/
structure RefreshEnv where
  version : Except String (List VersionInfo)
  cpu_info : Except String (List CpuInfo)
  k8s_client : Except String K8sEnv
  cni_fallback_logs : Except String String
  pod_health : Except String PodHealthInfo
  detected_addons : DetectedAddons
  system : SystemEnv
  kubernetes : KubernetesEnv
  services : Except String (List NodeServices)
  cert_checks : List DiagnosticCheck
  cni_checks : List DiagnosticCheck
  addon_checks : List DiagnosticCheck
  timed_out : Bool
  deriving DecidableEq, Repr

namespace DiagnosticsComponent

/-- The management-API handle available to `refresh` after the creation
attempt (`k8s_client.as_ref()` in `mod.rs`). -/
def k8s_handle (env : RefreshEnv) : Option K8sEnv :=
  match env.k8s_client with
  | .ok k => some k
  | .error _ => none

/-- The platform step of `refresh` (`mod.rs`): on a successful
`client.version()` with a first entry, record the platform and the
container flag; best-effort otherwise. -/
def apply_version_step (env : RefreshEnv) (d : DiagnosticsData) : DiagnosticsData :=
  match env.version with
  | .ok versions =>
    match versions.head? with
    | some v =>
      { d with context :=
          { d.context with platform := v.platform, is_container := v.platform = "container" } }
    | none => d
  | .error _ => d

/-- The CPU-count step of `refresh` (`mod.rs`): on a successful
`client.cpu_info()` with a first entry, record `max(cpu_count, 1)`. -/
def apply_cpu_step (env : RefreshEnv) (d : DiagnosticsData) : DiagnosticsData :=
  match env.cpu_info with
  | .ok infos =>
    match infos.head? with
    | some info => { d with context := { d.context with cpu_count := max info.cpu_count 1 } }
    | none => d
  | .error _ => d

/-- The management-API step of `refresh` (`mod.rs`): record the client
creation outcome into `k8s_error` (cleared on success, the formatted
error on failure). -/
def apply_k8s_client_step (env : RefreshEnv) (d : DiagnosticsData) : DiagnosticsData :=
  match env.k8s_client with
  | .ok _ => { d with context := { d.context with k8s_error := none } }
  | .error e => { d with context := { d.context with k8s_error := some e } }

/-- The detection step of `refresh` (`mod.rs`): store the detected CNI
type and pod inventory into the context. -/
def apply_detect_step (env : RefreshEnv) (d : DiagnosticsData) : DiagnosticsData :=
  let detected := detect_cni_with_client (k8s_handle env) env.cni_fallback_logs
  { d with context := { d.context with cni_type := detected.1, cni_info := detected.2 } }

/-- The pod-health and addon-detection step of `refresh` (`mod.rs`),
executed only when a management-API client exists. -/
def apply_pod_addons_step (env : RefreshEnv) (d : DiagnosticsData) : DiagnosticsData :=
  match k8s_handle env with
  | some _ =>
    let d :=
      match env.pod_health with
      | .ok health => { d with context := { d.context with pod_health := some health } }
      | .error _ => d
    { d with detected_addons := env.detected_addons }
  | none => d

/-- The context-population phase of `refresh` (`mod.rs`) as one update
of the loaded data, with each best-effort mutation in program order.
In the source each step is its own `if let Some(data) = self.data_mut()`
block; data presence does not change between them, so the sequence is
one update of the data when present. -/
def prelude_update (env : RefreshEnv) (d : DiagnosticsData) : DiagnosticsData :=
  apply_pod_addons_step env
    (apply_detect_step env
      (apply_k8s_client_step env
        (apply_cpu_step env
          (apply_version_step env d))))

/-- The refresh steps before the timeout-wrapped check run:
`start_loading`, then the context-population updates. -/
def refresh_prelude (c : DiagnosticsComponent) (env : RefreshEnv) :
    DiagnosticsComponent :=
  ({ c with state := c.state.start_loading }).modify_data (prelude_update env)

/-- The fresh five-list snapshot computed inside the timeout block of
`refresh` (`mod.rs`): the core runners over their call outcomes, with
the certificate checks appended to the system list, in category order
(system, kubernetes, services, cni, addons). -/
def refreshed_lists (env : RefreshEnv) (ctx : DiagnosticContext) :
    List DiagnosticCheck × List DiagnosticCheck × List DiagnosticCheck ×
    List DiagnosticCheck × List DiagnosticCheck :=
  (run_system_checks env.system ++ env.cert_checks,
   run_kubernetes_checks env.kubernetes ctx.node_role,
   run_service_checks env.services,
   env.cni_checks,
   env.addon_checks)

/-- Embedding of `refresh` (`mod.rs`): bail out when no client is
configured; otherwise run the context-population prelude, then either
report the timeout into the error slot (data untouched) or install the
complete new five-list snapshot, re-clamp the selection and mark the
session loaded. -/
def refresh (c : DiagnosticsComponent) (env : RefreshEnv) : DiagnosticsComponent :=
  if c.has_client = false then c.set_error "No client configured"
  else
    let c := c.refresh_prelude env
    let ctx := (c.data.map (·.context)).getD DiagnosticContext.new
    if env.timed_out then c.set_error "Timeout fetching diagnostics"
    else
      let lists := refreshed_lists env ctx
      let c :=
        c.modify_data (fun d =>
          { d with
              system_checks := lists.1
              kubernetes_checks := lists.2.1
              service_checks := lists.2.2.1
              cni_checks := lists.2.2.2.1
              addon_checks := lists.2.2.2.2 })
      let c := c.ensure_valid_selection
      { c with state := c.state.mark_loaded }

end DiagnosticsComponent

/-- The five category lists of a snapshot in selection order — the order
`current_checks` dispatches on (0 system, 1 kubernetes, 2 cni,
3 services, 4 addons). -/
def category_lists (d : DiagnosticsData) : List (List DiagnosticCheck) :=
  [d.system_checks, d.kubernetes_checks, d.cni_checks, d.service_checks, d.addon_checks]

/-- Category lookup as the spec words it (§8): a total list lookup over
the always-present five lists, defaulting to the empty list for any
out-of-range index.  Stated from the spec to be compared with the
source's `current_checks`. -/
def safe_category_lookup (c : DiagnosticsComponent) : List DiagnosticCheck :=
  match c.get_display_data with
  | none => []
  | some d => (category_lists d).getD c.selected_category []

namespace DiagnosticsComponent

theorem assocInsert_idem (k : String) (v : NodeDiagnosticsData) :
    ∀ m : List (String × NodeDiagnosticsData),
      assocInsert k v (assocInsert k v m) = assocInsert k v m
  | [] => by simp [assocInsert]
  | (k', v') :: rest => by
    by_cases h : k' = k
    · simp [assocInsert, h]
    · simp [assocInsert, h, assocInsert_idem k v rest]

theorem clear_lists_merge_step (acc : DiagnosticsData)
    (entry : String × NodeDiagnosticsData) :
    clear_lists (merge_step acc entry) = clear_lists acc := rfl

theorem clear_lists_foldl (l : List (String × NodeDiagnosticsData)) :
    ∀ acc : DiagnosticsData,
      clear_lists (l.foldl merge_step acc) = clear_lists acc := by
  induction l with
  | nil => intro acc; rfl
  | cons e rest ih =>
    intro acc
    rw [List.foldl_cons, ih, clear_lists_merge_step]

theorem clear_lists_clear_lists (d : DiagnosticsData) :
    clear_lists (clear_lists d) = clear_lists d := rfl

theorem rebuild_group_data_eq (c : DiagnosticsComponent) (hg : c.is_group_view = true) :
    c.rebuild_group_data =
      { c with state := { c.state with
          data := some (c.node_data.foldl merge_step (clear_lists (c.state.data.getD {}))) } } := by
  unfold rebuild_group_data
  rw [hg]
  rfl

theorem rebuild_group_data_node_data (c : DiagnosticsComponent) :
    c.rebuild_group_data.node_data = c.node_data := by
  unfold rebuild_group_data
  split <;> rfl

theorem rebuild_group_data_is_group_view (c : DiagnosticsComponent) :
    c.rebuild_group_data.is_group_view = c.is_group_view := by
  unfold rebuild_group_data
  split <;> rfl

theorem set_node_data_eta (c : DiagnosticsComponent)
    (v : List (String × NodeDiagnosticsData)) (h : c.node_data = v) :
    { c with node_data := v } = c := by
  cases c
  cases h
  rfl

theorem rebuild_group_data_idem (c : DiagnosticsComponent) :
    c.rebuild_group_data.rebuild_group_data = c.rebuild_group_data := by
  by_cases hg : c.is_group_view = true
  · rw [rebuild_group_data_eq c hg]
    rw [rebuild_group_data_eq ({ c with state := { c.state with
        data := some (c.node_data.foldl merge_step (clear_lists (c.state.data.getD {}))) } })
      hg]
    simp only [Option.getD_some, clear_lists_foldl, clear_lists_clear_lists]
  · have hg' : c.is_group_view = false := by revert hg; cases c.is_group_view <;> simp
    simp [rebuild_group_data, hg']

theorem add_node_diagnostics_group (c : DiagnosticsComponent)
    (hg : c.is_group_view = true) (h : String) (d : DiagnosticsData) :
    c.add_node_diagnostics h d =
      ({ c with node_data := assocInsert h ⟨h, d⟩ c.node_data }).rebuild_group_data := by
  unfold add_node_diagnostics
  rw [hg]
  rfl

/-- C7: the group merge is a full rebuild from the per-node map, so
adding the same node data twice yields a component — and in particular a
merged five-list view — identical to adding it once. -/
theorem add_node_diagnostics_idempotent (c : DiagnosticsComponent) (h : String)
    (d : DiagnosticsData) :
    (c.add_node_diagnostics h d).add_node_diagnostics h d =
      c.add_node_diagnostics h d := by
  by_cases hg : c.is_group_view = true
  · rw [add_node_diagnostics_group c hg]
    rw [add_node_diagnostics_group _
      (by rw [rebuild_group_data_is_group_view]; exact hg)]
    rw [rebuild_group_data_node_data]
    rw [show ({ c with node_data := assocInsert h ⟨h, d⟩ c.node_data} :
        DiagnosticsComponent).node_data = assocInsert h ⟨h, d⟩ c.node_data from rfl]
    rw [assocInsert_idem]
    rw [set_node_data_eta _ _ (by rw [rebuild_group_data_node_data])]
    exact rebuild_group_data_idem _
  · have hg' : c.is_group_view = false := by revert hg; cases c.is_group_view <;> simp
    simp [add_node_diagnostics, hg']

/-- C10: `add_node_diagnostics` on a component constructed for
single-node view returns immediately and leaves every field of the
component unchanged. -/
theorem add_node_diagnostics_single_node_noop (c : DiagnosticsComponent)
    (hg : c.is_group_view = false) (h : String) (d : DiagnosticsData) :
    c.add_node_diagnostics h d = c := by
  simp [add_node_diagnostics, hg]

/-- C10 witness: a freshly constructed single-node component is left
unchanged by `add_node_diagnostics`. -/
theorem add_node_diagnostics_single_node_noop_witness :
    (new "node-1" "10.0.0.1" "worker" none).is_group_view = false ∧
      (new "node-1" "10.0.0.1" "worker" none).add_node_diagnostics "node-2" {} =
        new "node-1" "10.0.0.1" "worker" none :=
  ⟨rfl, add_node_diagnostics_single_node_noop _ rfl "node-2" {}⟩

/-- C8: `current_checks` agrees with the spec's total category lookup —
the five lists are always present (`category_lists` always has length
five) and looking up any category index, in or out of range, in any
component state yields a list and never an out-of-bounds access. -/
theorem current_checks_total (c : DiagnosticsComponent) :
    c.current_checks = safe_category_lookup c ∧
      ∀ d : DiagnosticsData, (category_lists d).length = 5 := by
  constructor
  · unfold current_checks safe_category_lookup
    cases c.get_display_data with
    | none => rfl
    | some d =>
      rcases hc : c.selected_category with _ | _ | _ | _ | _ | n <;>
        simp [category_lists, List.getD]
  · intro d; rfl

end DiagnosticsComponent

/-- C2: the two detection paths are mutually exclusive per call.  When
the orchestration path is reachable and its pod scan yields a
non-Unknown type, that type (with the pod inventory) is the result and
the log text is never consulted; the log fallback is the entire result
exactly when the client cannot be created, the pod query errors, or the
scan yields Unknown — the paths are never merged. -/
theorem detect_cni_paths_exclusive (env : CniDetectEnv) :
    (∀ k pods, env.k8s_client = .ok k → k.list_pods = .ok pods →
      (List.foldl detect_cni_step CniInfo.empty pods).cni_type ≠ CniType.unknown →
      (∀ logs', detect_cni { env with kubelet_logs := logs' } = detect_cni env) ∧
        detect_cni env =
          ((List.foldl detect_cni_step CniInfo.empty pods).cni_type,
           some ⟨(List.foldl detect_cni_step CniInfo.empty pods).cni_type,
                 (List.foldl detect_cni_step CniInfo.empty pods).pods⟩)) ∧
    (∀ e, env.k8s_client = .error e →
      detect_cni env = (detect_cni_from_logs env.kubelet_logs, none)) ∧
    (∀ k e, env.k8s_client = .ok k → k.list_pods = .error e →
      detect_cni env = (detect_cni_from_logs env.kubelet_logs, none)) ∧
    (∀ k pods, env.k8s_client = .ok k → k.list_pods = .ok pods →
      (List.foldl detect_cni_step CniInfo.empty pods).cni_type = CniType.unknown →
      detect_cni env = (detect_cni_from_logs env.kubelet_logs, none)) := by
  refine ⟨?_, ?_, ?_, ?_⟩
  · intro k pods hk hp hne
    constructor
    · intro logs'
      simp [detect_cni, hk, detect_cni_from_k8s, hp, hne, Except.map]
    · simp [detect_cni, hk, detect_cni_from_k8s, hp, hne, Except.map]
  · intro e he
    simp [detect_cni, he]
  · intro k e hk hp
    simp [detect_cni, hk, detect_cni_from_k8s, hp, Except.map]
  · intro k pods hk hp hu
    simp [detect_cni, hk, detect_cni_from_k8s, hp, hu, Except.map]

/-- C2 witness: with a reachable orchestration query listing one
kube-flannel pod, detection returns Flannel with the pod inventory, even
though the kubelet log text contains a Cilium marker. -/
theorem detect_cni_paths_exclusive_witness :
    detect_cni ⟨.ok ⟨.ok [⟨"kube-flannel-ds-abc", "Running", true, 0⟩]⟩,
        .ok "cilium everywhere"⟩ =
      (CniType.flannel, some ⟨.flannel, [⟨"kube-flannel-ds-abc", "Running", true, 0⟩]⟩) := by
  have h := ((detect_cni_paths_exclusive
      ⟨.ok ⟨.ok [⟨"kube-flannel-ds-abc", "Running", true, 0⟩]⟩, .ok "cilium everywhere"⟩).1
    ⟨.ok [⟨"kube-flannel-ds-abc", "Running", true, 0⟩]⟩
    [⟨"kube-flannel-ds-abc", "Running", true, 0⟩] rfl rfl (by decide)).2
  exact h.trans (by decide)

/-- C3: the log fallback tests markers in the fixed priority order
Flannel ("flannel" or "subnet.env"), then Cilium ("cilium"), then
Calico ("calico" or "felix"); the first match wins, no match or a failed
log fetch yields Unknown, and a log containing only a Cilium marker
yields Cilium. -/
theorem detect_cni_from_logs_priority :
    (∀ logs, (strContainsSub logs "flannel" || strContainsSub logs "subnet.env") = true →
      detect_cni_from_logs (.ok logs) = CniType.flannel) ∧
    (∀ logs, (strContainsSub logs "flannel" || strContainsSub logs "subnet.env") = false →
      strContainsSub logs "cilium" = true →
      detect_cni_from_logs (.ok logs) = CniType.cilium) ∧
    (∀ logs, (strContainsSub logs "flannel" || strContainsSub logs "subnet.env") = false →
      strContainsSub logs "cilium" = false →
      (strContainsSub logs "calico" || strContainsSub logs "felix") = true →
      detect_cni_from_logs (.ok logs) = CniType.calico) ∧
    (∀ logs, (strContainsSub logs "flannel" || strContainsSub logs "subnet.env") = false →
      strContainsSub logs "cilium" = false →
      (strContainsSub logs "calico" || strContainsSub logs "felix") = false →
      detect_cni_from_logs (.ok logs) = CniType.unknown) ∧
    (∀ e, detect_cni_from_logs (.error e) = CniType.unknown) ∧
    detect_cni_from_logs (.ok "cilium-agent started") = CniType.cilium := by
  refine ⟨?_, ?_, ?_, ?_, ?_, by decide⟩
  · intro logs hf
    simp [detect_cni_from_logs, hf]
  · intro logs hf hc
    simp [detect_cni_from_logs, hf, hc]
  · intro logs hf hc hca
    simp [detect_cni_from_logs, hf, hc, hca]
  · intro logs hf hc hca
    simp [detect_cni_from_logs, hf, hc, hca]
  · intro e
    rfl

/-- C3 witness: a concrete log line holding only the Flannel marker is
classified Flannel by the first priority rule. -/
theorem detect_cni_from_logs_priority_witness :
    detect_cni_from_logs (.ok "starting flannel backend") = CniType.flannel :=
  detect_cni_from_logs_priority.1 "starting flannel backend" (by decide)

/-- C5 counterexample: on a control-plane node, a failing consensus-store
(etcd) status fetch produces a check with status Fail — not Unknown as
the claim states — while the log-based pod-health check is still
produced; and a failing kubelet log-stream fetch produces an Unknown
pod-health check whose details slot is empty — the error is not
captured in its details as the claim states. -/
theorem etcd_fetch_error_yields_fail :
    (run_kubernetes_checks ⟨.error "connection refused", .ok ""⟩ "controlplane").map
        (fun check => check.status) = [CheckStatus.fail, CheckStatus.pass] ∧
      CheckStatus.fail ≠ CheckStatus.unknown ∧
      kubernetes_pod_checks (.error "log fetch failed") =
        [DiagnosticCheck.unknown "pods_crashing" "Pod Health"] ∧
      (DiagnosticCheck.unknown "pods_crashing" "Pod Health").details = none := by
  decide

/-- C5 (amended): a failing memory, load-average or services fetch
yields a single Unknown check for that source with the error in its
details; a failing kubelet log-stream fetch yields a details-free
Unknown pod-health check (the error is discarded); each failure is
scoped to that check — the runner still produces the remaining blocks;
the consensus-store (etcd) status fetch is the exception to
Unknown-on-failure: its failure yields a Fail "Unreachable" check with
the error in details. -/
theorem fetch_error_scoping (e : String) :
    system_memory_checks (.error e) =
        [(DiagnosticCheck.unknown "memory" "Memory").with_details ("Error: " ++ e)] ∧
    system_load_checks (.error e) =
        [(DiagnosticCheck.unknown "cpu_load" "CPU Load").with_details ("Error: " ++ e)] ∧
    run_service_checks (.error e) =
        [(DiagnosticCheck.unknown "services" "Services").with_details ("Error: " ++ e)] ∧
    (∀ env : SystemEnv,
      run_system_checks env = system_memory_checks env.memory ++ system_load_checks env.load_avg) ∧
    (∀ etcd_result role, run_kubernetes_checks ⟨etcd_result, .error e⟩ role =
      kubernetes_etcd_checks role etcd_result ++
        [DiagnosticCheck.unknown "pods_crashing" "Pod Health"]) ∧
    (∀ role, (strContainsSub role "controlplane" || strContainsSub role "control") = true →
      kubernetes_etcd_checks role (.error e) =
        [(DiagnosticCheck.fail "etcd" "Etcd" "Unreachable" none).with_details ("Error: " ++ e)]) := by
  refine ⟨rfl, rfl, rfl, fun env => rfl, fun etcd_result role => rfl, ?_⟩
  intro role hrole
  simp [kubernetes_etcd_checks, hrole]

/-- C5 witness: the amended behaviour at concrete inputs — a memory
fetch error becomes the Unknown memory check with the error in details,
a kubelet log-stream error leaves the runner producing the etcd block
plus the details-free Unknown pod-health check, and an etcd fetch error
on a "controlplane" role becomes the Fail "Unreachable" check. -/
theorem fetch_error_scoping_witness :
    system_memory_checks (.error "timeout") =
        [(DiagnosticCheck.unknown "memory" "Memory").with_details ("Error: " ++ "timeout")] ∧
      run_kubernetes_checks ⟨.error "timeout", .error "timeout"⟩ "worker" =
        kubernetes_etcd_checks "worker" (.error "timeout") ++
          [DiagnosticCheck.unknown "pods_crashing" "Pod Health"] ∧
      kubernetes_etcd_checks "controlplane" (.error "timeout") =
        [(DiagnosticCheck.fail "etcd" "Etcd" "Unreachable" none).with_details
          ("Error: " ++ "timeout")] :=
  ⟨(fetch_error_scoping "timeout").1,
   (fetch_error_scoping "timeout").2.2.2.2.1 (.error "timeout") "worker",
   (fetch_error_scoping "timeout").2.2.2.2.2 "controlplane" (by decide)⟩

/-- C6: with a positive memory total, the memory check fails above 90%
of the used fraction `(total - available) / total`, warns above 80%, and
passes otherwise; 16 GiB total with 1 GiB available (93.75%) fails, with
4 GiB available (75%) passes, and with 2.8 GiB available (82.5%)
warns. -/
theorem memory_check_thresholds (info : MemInfo) (htot : 0 < info.mem_total) :
    info.usage_percent =
        ((info.mem_total - info.mem_available : Nat) : ℚ) * 100 / info.mem_total ∧
    (90 < info.usage_percent → (memory_check info).status = CheckStatus.fail) ∧
    (80 < info.usage_percent → info.usage_percent ≤ 90 →
      (memory_check info).status = CheckStatus.warn) ∧
    (info.usage_percent ≤ 80 → (memory_check info).status = CheckStatus.pass) ∧
    (memory_check ⟨17179869184, 1073741824⟩).status = CheckStatus.fail ∧
    (memory_check ⟨17179869184, 4294967296⟩).status = CheckStatus.pass ∧
    (memory_check ⟨17179869184, 3006477107⟩).status = CheckStatus.warn := by
  refine ⟨?_, ?_, ?_, ?_, ?_, ?_, ?_⟩
  · simp [MemInfo.usage_percent, htot.ne']
  · intro h
    unfold memory_check
    rw [if_pos h]
    rfl
  · intro h80 h90
    unfold memory_check
    rw [if_neg (by simpa using h90), if_pos h80]
    rfl
  · intro h80
    unfold memory_check
    rw [if_neg (by simp; linarith), if_neg (by simpa using h80)]
    rfl
  · have hpct : (MemInfo.usage_percent ⟨17179869184, 1073741824⟩) = 375 / 4 := by
      norm_num [MemInfo.usage_percent]
    unfold memory_check
    rw [hpct, if_pos (by norm_num)]
    rfl
  · have hpct : (MemInfo.usage_percent ⟨17179869184, 4294967296⟩) = 75 := by
      norm_num [MemInfo.usage_percent]
    unfold memory_check
    rw [hpct, if_neg (by norm_num), if_neg (by norm_num)]
    rfl
  · have hpct : (MemInfo.usage_percent ⟨17179869184, 3006477107⟩) =
        1417339207700 / 17179869184 := by
      norm_num [MemInfo.usage_percent]
    unfold memory_check
    rw [hpct, if_neg (by norm_num), if_pos (by norm_num)]
    rfl

/-- C6 witness: the thresholds applied at a concrete positive total —
50 of 100 bytes used (50%) passes. -/
theorem memory_check_thresholds_witness :
    (0 : Nat) < 100 ∧ (memory_check ⟨100, 50⟩).status = CheckStatus.pass :=
  ⟨by decide,
   (memory_check_thresholds ⟨100, 50⟩ (by decide)).2.2.2.1
     (by norm_num [MemInfo.usage_percent])⟩

namespace DiagnosticsComponent

theorem apply_version_step_context (env : RefreshEnv) (d : DiagnosticsData) :
    (apply_version_step env d).context.k8s_error = d.context.k8s_error ∧
      (apply_version_step env d).context.cni_type = d.context.cni_type ∧
      five_lists (apply_version_step env d) = five_lists d := by
  unfold apply_version_step
  refine ⟨?_, ?_, ?_⟩ <;> (repeat' split) <;> rfl

theorem apply_cpu_step_context (env : RefreshEnv) (d : DiagnosticsData) :
    (apply_cpu_step env d).context.k8s_error = d.context.k8s_error ∧
      (apply_cpu_step env d).context.cni_type = d.context.cni_type ∧
      five_lists (apply_cpu_step env d) = five_lists d := by
  unfold apply_cpu_step
  refine ⟨?_, ?_, ?_⟩ <;> (repeat' split) <;> rfl

theorem apply_k8s_client_step_context (env : RefreshEnv) (d : DiagnosticsData) :
    (apply_k8s_client_step env d).context.k8s_error =
        (match env.k8s_client with
         | .ok _ => none
         | .error e => some e) ∧
      (apply_k8s_client_step env d).context.cni_type = d.context.cni_type ∧
      five_lists (apply_k8s_client_step env d) = five_lists d := by
  unfold apply_k8s_client_step
  refine ⟨?_, ?_, ?_⟩ <;> (repeat' split) <;> rfl

theorem apply_detect_step_context (env : RefreshEnv) (d : DiagnosticsData) :
    (apply_detect_step env d).context.k8s_error = d.context.k8s_error ∧
      (apply_detect_step env d).context.cni_type =
        (detect_cni_with_client (k8s_handle env) env.cni_fallback_logs).1 ∧
      five_lists (apply_detect_step env d) = five_lists d :=
  ⟨rfl, rfl, rfl⟩

theorem apply_pod_addons_step_context (env : RefreshEnv) (d : DiagnosticsData) :
    (apply_pod_addons_step env d).context.k8s_error = d.context.k8s_error ∧
      (apply_pod_addons_step env d).context.cni_type = d.context.cni_type ∧
      five_lists (apply_pod_addons_step env d) = five_lists d := by
  unfold apply_pod_addons_step
  refine ⟨?_, ?_, ?_⟩ <;> (repeat' split) <;> rfl

theorem prelude_update_k8s_error (env : RefreshEnv) (d : DiagnosticsData) :
    (prelude_update env d).context.k8s_error =
      match env.k8s_client with
      | .ok _ => none
      | .error e => some e := by
  unfold prelude_update
  rw [(apply_pod_addons_step_context env _).1, (apply_detect_step_context env _).1,
    (apply_k8s_client_step_context env _).1]

theorem prelude_update_cni_type (env : RefreshEnv) (d : DiagnosticsData) :
    (prelude_update env d).context.cni_type =
      (detect_cni_with_client (k8s_handle env) env.cni_fallback_logs).1 := by
  unfold prelude_update
  rw [(apply_pod_addons_step_context env _).2.1, (apply_detect_step_context env _).2.1]

theorem five_lists_prelude_update (env : RefreshEnv) (d : DiagnosticsData) :
    five_lists (prelude_update env d) = five_lists d := by
  unfold prelude_update
  rw [(apply_pod_addons_step_context env _).2.2, (apply_detect_step_context env _).2.2,
    (apply_k8s_client_step_context env _).2.2, (apply_cpu_step_context env _).2.2,
    (apply_version_step_context env _).2.2]

theorem ensure_valid_selection_state (c : DiagnosticsComponent) :
    c.ensure_valid_selection.state = c.state := by
  unfold ensure_valid_selection update_table_state
  dsimp only
  split
  · rfl
  · split <;> rfl

theorem refresh_data_context_proj {α : Type _} (c : DiagnosticsComponent)
    (env : RefreshEnv) (h : c.has_client = true) (f : DiagnosticContext → α) :
    ((c.refresh env).data).map (fun d => f d.context) =
      c.data.map (fun d => f (prelude_update env d).context) := by
  unfold refresh
  rw [h]
  rw [if_neg (by decide)]
  by_cases ht : env.timed_out
  · rw [if_pos ht]
    show Option.map _ (c.state.data.map (prelude_update env)) = _
    rw [Option.map_map]
    rfl
  · rw [if_neg ht]
    show ((((c.refresh_prelude env).modify_data _).ensure_valid_selection.state.mark_loaded).data).map _ = _
    rw [show ∀ s : AsyncState DiagnosticsData, s.mark_loaded.data = s.data from fun _ => rfl]
    rw [ensure_valid_selection_state]
    show ((c.state.data.map (prelude_update env)).map _).map _ = _
    rw [Option.map_map, Option.map_map]
    rfl

end DiagnosticsComponent

/-- The component used in the C4 counterexample: a single-node session
with a configured client. -/
def c4_component : DiagnosticsComponent :=
  (DiagnosticsComponent.new "node-a" "10.0.0.1" "worker" none).set_client

/-- The refresh environment of the C4 counterexample: the management-API
client is created successfully, its kube-system pod list is empty (the
pod scan therefore yields Unknown), the kubelet log holds a Cilium
marker, and every other fetch fails. -/
def c4_env : RefreshEnv :=
  { version := .error "ve"
    cpu_info := .error "ce"
    k8s_client := .ok ⟨.ok []⟩
    cni_fallback_logs := .ok "cilium agent up"
    pod_health := .error "pe"
    detected_addons := {}
    system := ⟨.error "me", .error "le"⟩
    kubernetes := ⟨.error "ee", .error "ke"⟩
    services := .error "se"
    cert_checks := []
    cni_checks := []
    addon_checks := []
    timed_out := false }

/-- C4 counterexample: the primary pod scan is reachable but yields
Unknown (no matching pods), so detection falls back to the kubelet log
and returns Cilium — yet `k8s_error` is `none` (it was cleared on the
successful client creation), so the fallback path runs without a
populated management-API error field. -/
theorem fallback_without_k8s_error :
    ((c4_component.refresh c4_env).data).map (fun d => d.context.cni_type) =
        some CniType.cilium ∧
      ((c4_component.refresh c4_env).data).map (fun d => d.context.k8s_error) = some none ∧
      detect_cni_from_k8s (Except.ok ([] : List PodRecord)) = .ok CniInfo.empty := by
  decide

/-- C4 (amended): the management-API error field is populated exactly
when the client could not be created — one of the causes of fallback use
— and detection is then the log fallback; when the client is created
successfully, `k8s_error` is cleared to `none`, even if the pod scan
yields Unknown and the log fallback still runs. -/
theorem k8s_error_populated_on_creation_failure (env : RefreshEnv)
    (c : DiagnosticsComponent) (h : c.has_client = true) :
    (∀ e, env.k8s_client = .error e →
      ((c.refresh env).data).map (fun d => d.context.k8s_error) =
          c.data.map (fun _ => some e) ∧
        ((c.refresh env).data).map (fun d => d.context.cni_type) =
          c.data.map (fun _ => detect_cni_from_logs env.cni_fallback_logs)) ∧
    (∀ k, env.k8s_client = .ok k →
      ((c.refresh env).data).map (fun d => d.context.k8s_error) =
        c.data.map (fun _ => none)) := by
  constructor
  · intro e he
    constructor
    · rw [DiagnosticsComponent.refresh_data_context_proj c env h (fun ctx => ctx.k8s_error)]
      refine Option.map_congr fun d _ => ?_
      rw [DiagnosticsComponent.prelude_update_k8s_error, he]
    · rw [DiagnosticsComponent.refresh_data_context_proj c env h (fun ctx => ctx.cni_type)]
      refine Option.map_congr fun d _ => ?_
      rw [DiagnosticsComponent.prelude_update_cni_type]
      show (detect_cni_with_client (DiagnosticsComponent.k8s_handle env)
        env.cni_fallback_logs).1 = _
      unfold DiagnosticsComponent.k8s_handle
      rw [he]
      rfl
  · intro k hk
    rw [DiagnosticsComponent.refresh_data_context_proj c env h (fun ctx => ctx.k8s_error)]
    refine Option.map_congr fun d _ => ?_
    rw [DiagnosticsComponent.prelude_update_k8s_error, hk]

/-- C4 amended-claim witness: with a failed client creation the error
field holds the creation error after a refresh of a concrete session. -/
theorem k8s_error_populated_on_creation_failure_witness :
    ((c4_component.refresh { c4_env with k8s_client := .error "kubeconfig fetch failed" }).data).map
        (fun d => d.context.k8s_error) =
      c4_component.data.map (fun _ => some "kubeconfig fetch failed") :=
  ((k8s_error_populated_on_creation_failure
      { c4_env with k8s_client := .error "kubeconfig fetch failed" } c4_component rfl).1
    "kubeconfig fetch failed" rfl).1

/-- C1: a timed-out refresh sets only the error slot (to the timeout
message) and leaves the five check-category lists exactly as they were;
a refresh that completes installs the full freshly computed snapshot —
so from the caller's perspective, either the old snapshot remains or a
complete new one replaces it. -/
theorem refresh_all_or_nothing (c : DiagnosticsComponent) (env : RefreshEnv)
    (h : c.has_client = true) :
    (env.timed_out = true →
      (c.refresh env).state.error = some "Timeout fetching diagnostics" ∧
        ((c.refresh env).state.data).map five_lists = (c.state.data).map five_lists) ∧
    (env.timed_out = false →
      ((c.refresh env).state.data).map five_lists =
        (c.state.data).map (fun _ =>
          DiagnosticsComponent.refreshed_lists env
            ((((c.refresh_prelude env).data).map (fun d => d.context)).getD
              DiagnosticContext.new))) := by
  constructor
  · intro ht
    unfold DiagnosticsComponent.refresh
    rw [h, if_neg (by decide), if_pos ht]
    refine ⟨rfl, ?_⟩
    show ((c.state.data.map (DiagnosticsComponent.prelude_update env)).map five_lists) = _
    rw [Option.map_map]
    refine Option.map_congr fun d _ => ?_
    exact DiagnosticsComponent.five_lists_prelude_update env d
  · intro ht
    unfold DiagnosticsComponent.refresh
    rw [h, if_neg (by decide), if_neg (by rw [ht]; decide)]
    dsimp only
    rw [DiagnosticsComponent.ensure_valid_selection_state]
    show (((c.state.data.map (DiagnosticsComponent.prelude_update env)).map _).map five_lists) = _
    rw [Option.map_map, Option.map_map]
    exact Option.map_congr fun d _ => rfl

/-- The concrete session of the C1 witness: a single-node component with
a configured client. -/
def c1_component : DiagnosticsComponent :=
  (DiagnosticsComponent.new "node-c" "10.0.0.3" "controlplane" none).set_client

/-- The refresh environment of the C1 witness: the bounded check run
times out. -/
def c1_env : RefreshEnv :=
  { version := .error "ve"
    cpu_info := .error "ce"
    k8s_client := .error "ke"
    cni_fallback_logs := .error "le"
    pod_health := .error "pe"
    detected_addons := {}
    system := ⟨.error "me", .error "la"⟩
    kubernetes := ⟨.error "ee", .error "kl"⟩
    services := .error "se"
    cert_checks := []
    cni_checks := []
    addon_checks := []
    timed_out := true }

/-- C1 witness: the all-or-nothing contract applied to a concrete
timed-out refresh. -/
theorem refresh_all_or_nothing_witness :
    (c1_component.refresh c1_env).state.error = some "Timeout fetching diagnostics" ∧
      ((c1_component.refresh c1_env).state.data).map five_lists =
        (c1_component.state.data).map five_lists :=
  (refresh_all_or_nothing c1_component c1_env rfl).1 rfl

namespace DiagnosticsComponent

theorem update_table_state_applying (c : DiagnosticsComponent) :
    c.update_table_state.applying_fix = c.applying_fix := rfl

theorem next_check_applying (c : DiagnosticsComponent) :
    c.next_check.applying_fix = c.applying_fix := by
  unfold next_check
  dsimp only
  split <;> rfl

theorem prev_check_applying (c : DiagnosticsComponent) :
    c.prev_check.applying_fix = c.applying_fix := by
  unfold prev_check
  split <;> rfl

theorem next_category_applying (c : DiagnosticsComponent) :
    c.next_category.applying_fix = c.applying_fix := rfl

theorem prev_category_applying (c : DiagnosticsComponent) :
    c.prev_category.applying_fix = c.applying_fix := rfl

theorem initiate_fix_applying (c : DiagnosticsComponent) :
    c.initiate_fix.applying_fix = c.applying_fix := by
  unfold initiate_fix
  dsimp only
  (repeat' split) <;> rfl

theorem handle_key_event_applying (c : DiagnosticsComponent) (k : Key) :
    (c.handle_key_event k).1.applying_fix = c.applying_fix := by
  unfold handle_key_event
  dsimp only
  (repeat' split) <;>
    first
      | rfl
      | exact next_check_applying c
      | exact prev_check_applying c
      | exact next_category_applying c
      | exact prev_category_applying c
      | exact initiate_fix_applying c

end DiagnosticsComponent

/-- One step of the remediation protocol as driven by the application
loop.  Modelled from the spec (§5): the loop is single-threaded and
awaits each dispatched action to completion before polling the next key
event (the dispatch of `Action::ApplyDiagnosticFix` is not part of the
snapshot), so key handling and a new apply can only run while no fix is
in the Applying phase, while the completion of a dispatched fix action
is the only step out of that phase. -/
inductive RemStep : DiagnosticsComponent → DiagnosticsComponent → Prop
  | key (c : DiagnosticsComponent) (k : DiagnosticsComponent.Key) :
      c.applying_fix = false → RemStep c (c.handle_key_event k).1
  | applyStart (c : DiagnosticsComponent) :
      c.applying_fix = false → RemStep c c.apply_start
  | applyFinish (c : DiagnosticsComponent)
      (result : Option (Except String (List ApplyConfigResult))) :
      c.applying_fix = true → RemStep c (c.apply_finish result)

/-- States reachable from a start state through remediation steps. -/
inductive RemReachable (s₀ : DiagnosticsComponent) : DiagnosticsComponent → Prop
  | refl : RemReachable s₀ s₀
  | tail {s s' : DiagnosticsComponent} :
      RemReachable s₀ s → RemStep s s' → RemReachable s₀ s'

/-- C9: at most one fix is in flight — in every state reachable from a
start state with no fix applying, the Applying phase implies an empty
pending-fix slot, and every step enabled while Applying (only the
completion of the dispatched action) leaves the pending-fix slot and
the confirmation state unchanged; in particular no initiate can run
until the apply has reported. -/
theorem remediation_single_flight (s₀ s : DiagnosticsComponent)
    (h0 : s₀.applying_fix = false) (hr : RemReachable s₀ s) :
    (s.applying_fix = true → s.pending_action = none) ∧
    (∀ s', RemStep s s' → s.applying_fix = true →
      s'.pending_action = s.pending_action ∧
        s'.show_confirmation = s.show_confirmation) := by
  constructor
  · induction hr with
    | refl =>
      intro hap
      rw [h0] at hap
      cases hap
    | @tail mid target hprev step ih =>
      intro hap
      cases step
      case key k hk =>
        rw [DiagnosticsComponent.handle_key_event_applying, hk] at hap
        cases hap
      case applyStart hc =>
        cases hp : mid.pending_action with
        | none =>
          simp only [DiagnosticsComponent.apply_start, hp] at hap
          rw [hc] at hap
          cases hap
        | some p =>
          simp only [DiagnosticsComponent.apply_start, hp]
          split
          · rfl
          · rfl
      case applyFinish res hc =>
        simp only [DiagnosticsComponent.apply_finish] at hap
        cases hap
  · intro s' hstep hap
    cases hstep
    case key k hk =>
      rw [hk] at hap
      cases hap
    case applyStart hc =>
      rw [hc] at hap
      cases hap
    case applyFinish res hc =>
      exact ⟨rfl, rfl⟩

/-- The start state of the C9 witness: a single-node session with a
configured client, a pending restart-service fix awaiting confirmation,
and no fix applying. -/
def c9_start : DiagnosticsComponent :=
  { (DiagnosticsComponent.new "node-d" "10.0.0.4" "worker" none).set_client with
      pending_action :=
        some ⟨"service_kubelet", ⟨"Restart kubelet", .restartService "kubelet"⟩, none⟩
      show_confirmation := true }

/-- C9 witness: starting the apply from the concrete pending state
empties the pending slot, and the completion step changes neither the
pending slot nor the confirmation state. -/
theorem remediation_single_flight_witness :
    c9_start.apply_start.pending_action = none ∧
      (c9_start.apply_start.apply_finish (some (.ok []))).pending_action =
        c9_start.apply_start.pending_action ∧
      (c9_start.apply_start.apply_finish (some (.ok []))).show_confirmation =
        c9_start.apply_start.show_confirmation := by
  have h := remediation_single_flight c9_start c9_start.apply_start rfl
    (RemReachable.tail RemReachable.refl (RemStep.applyStart c9_start rfl))
  exact ⟨h.1 rfl,
    (h.2 _ (RemStep.applyFinish _ (some (.ok [])) rfl) rfl).1,
    (h.2 _ (RemStep.applyFinish _ (some (.ok [])) rfl) rfl).2⟩

end TalosPilot
